import Mathlib

/-!
Shallow embedding of the two fragments of this repository:

* the `CarbonComparisonCard` React component (local UI state and three
  fixed-ratio derived comparison values over a CO2 aggregate), and
* the Express HTTP router (`FootprintApiMiddleware`,
  `EmissionsApiMiddleware`, `RecommendationsApiMiddleware`, the
  `/healthz` route and `createRouter`).

External collaborators (`createValidFootprintRequest`,
`getCostAndEstimates`, `getRecommendations`, `getEmissionsFactors`,
`sumCO2`) live in packages that are not part of the supplied source; the
handlers are therefore parameterised over them as `Except`-returning
functions, with thrown JavaScript errors modelled by their runtime
constructor name and message. Numbers are modelled by rationals.
-/

namespace CCF

/-- A thrown JavaScript error, as observed by the catch blocks: the
handlers only ever inspect `e.constructor.name` and `e.message`. -/
structure JsError where
  ctorName : String
  message : String
deriving DecidableEq, Repr

/-- `EstimationRequestValidationError.prototype.constructor.name`. -/
def EstimationRequestValidationErrorName : String :=
  "EstimationRequestValidationError"

/-- `PartialDataError.prototype.constructor.name`. -/
def PartialDataErrorName : String := "PartialDataError"

/-- `RecommendationsRequestValidationError.prototype.constructor.name`. -/
def RecommendationsRequestValidationErrorName : String :=
  "RecommendationsRequestValidationError"

/-- An HTTP response as produced by the handlers: a status code and a
body (`res.json` bodies are represented by their serialised string). -/
structure HttpResponse where
  status : Nat
  body : String
deriving DecidableEq, Repr

/-- One `apiLogger` call. -/
inductive LogEntry where
  | info : String → LogEntry
  | warn : String → LogEntry
  | error : String → LogEntry
deriving DecidableEq, Repr

/-- The `tags` query object: a flat string-to-string mapping. -/
def Tags : Type := List (String × String)

instance : DecidableEq Tags := by
  unfold Tags
  infer_instance

/-- The query parameters read by `FootprintApiMiddleware`. A scalar
parameter is `Option String` (absent or its `toString`); the array
parameters are blind casts and kept as they arrive. -/
structure FootprintQuery where
  start : Option String
  «end» : Option String
  ignoreCache : Option String
  groupBy : Option String
  limit : Option String
  skip : Option String
  cloudProviders : Option (List String)
  accounts : Option (List String)
  services : Option (List String)
  regions : Option (List String)
  tags : Option Tags
deriving DecidableEq

/-- `FootprintEstimatesRawRequest`: the flat structure built from the
query parameters and handed to `createValidFootprintRequest`. -/
structure FootprintEstimatesRawRequest where
  startDate : Option String
  endDate : Option String
  ignoreCache : Option String
  groupBy : Option String
  limit : Option String
  skip : Option String
  cloudProviders : Option (List String)
  accounts : Option (List String)
  services : Option (List String)
  regions : Option (List String)
  tags : Option Tags
deriving DecidableEq

/-- JavaScript truthiness of `rawRequest.groupBy` in
`if (!rawRequest.groupBy)`: an absent value and the empty string are
falsy. -/
def jsFalsy : Option String → Bool
  | none => true
  | some s => s = ""

/-- Lines 203-215: the raw request is built field by field from the
query parameters. -/
def buildFootprintRawRequest (q : FootprintQuery) : FootprintEstimatesRawRequest :=
  { startDate := q.start
    endDate := q.«end»
    ignoreCache := q.ignoreCache
    limit := q.limit
    skip := q.skip
    groupBy := q.groupBy
    cloudProviders := q.cloudProviders
    accounts := q.accounts
    services := q.services
    regions := q.regions
    tags := q.tags }

/-- Lines 217-220: when `rawRequest.groupBy` is falsy it is replaced by
`"day"` before validation; the raw request is otherwise untouched. -/
def defaultedFootprintRaw (q : FootprintQuery) : FootprintEstimatesRawRequest :=
  let rawRequest := buildFootprintRawRequest q
  if jsFalsy rawRequest.groupBy then { rawRequest with groupBy := some "day" }
  else rawRequest

/-- The log entries emitted before the try block: the request-started
info line, then the warning when `groupBy` was defaulted. -/
def footprintStartLogs (q : FootprintQuery) : List LogEntry :=
  [LogEntry.info "Footprint API request started."] ++
    (if jsFalsy (buildFootprintRawRequest q).groupBy then
      [LogEntry.warn "GroupBy parameter not specified, adopting default \"day\""]
    else [])

/-- The body of the footprint try block: validate, then estimate; a
throw from either is the caught error. -/
def footprintRun {α : Type} (createValidFootprintRequest :
    FootprintEstimatesRawRequest → Except JsError α)
    (getCostAndEstimates : α → Except JsError String)
    (rawRequest : FootprintEstimatesRawRequest) : Except JsError String :=
  match createValidFootprintRequest rawRequest with
  | Except.ok estimationRequest => getCostAndEstimates estimationRequest
  | Except.error e => Except.error e

/-- Lines 230-239: the footprint catch block maps the caught error to a
response by comparing its constructor name against
`EstimationRequestValidationError` and `PartialDataError`. -/
def footprintCatch (e : JsError) : HttpResponse :=
  if e.ctorName = EstimationRequestValidationErrorName then
    { status := 400, body := e.message }
  else if e.ctorName = PartialDataErrorName then
    { status := 416, body := e.message }
  else { status := 500, body := "Internal Server Error" }

/-- Everything observable about one `FootprintApiMiddleware`
invocation: the socket timeout it sets, the logger calls, the raw
request handed to `createValidFootprintRequest`, and the response. -/
structure FootprintHandlerOutput where
  socketTimeoutMs : Nat
  logs : List LogEntry
  rawRequestPassed : FootprintEstimatesRawRequest
  response : HttpResponse
deriving DecidableEq

/-- `FootprintApiMiddleware`, parameterised over the two external
calls. The handler always produces a response: every throw from the try
block is handled by the catch block. -/
def FootprintApiMiddleware {α : Type}
    (createValidFootprintRequest : FootprintEstimatesRawRequest → Except JsError α)
    (getCostAndEstimates : α → Except JsError String)
    (q : FootprintQuery) : FootprintHandlerOutput :=
  match footprintRun createValidFootprintRequest getCostAndEstimates
      (defaultedFootprintRaw q) with
  | Except.ok estimationResults =>
    { socketTimeoutMs := 1000 * 60 * 10
      logs := footprintStartLogs q
      rawRequestPassed := defaultedFootprintRaw q
      response := { status := 200, body := estimationResults } }
  | Except.error e =>
    { socketTimeoutMs := 1000 * 60 * 10
      logs := footprintStartLogs q ++
        [LogEntry.error "Unable to process footprint request."]
      rawRequestPassed := defaultedFootprintRaw q
      response := footprintCatch e }

/-- Lines 252-255: the emissions-factors catch block recognises no
error kind at all. -/
def emissionsCatch (e : JsError) : HttpResponse :=
  { status := 500, body := "Internal Server Error" }

/-- Observable behaviour of one `EmissionsApiMiddleware` invocation. -/
structure EmissionsHandlerOutput where
  logs : List LogEntry
  response : HttpResponse
deriving DecidableEq

/-- `EmissionsApiMiddleware`, parameterised over
`getEmissionsFactors`. -/
def EmissionsApiMiddleware (getEmissionsFactors : Except JsError String) :
    EmissionsHandlerOutput :=
  match getEmissionsFactors with
  | Except.ok emissionsResults =>
    { logs := [LogEntry.info "Regions emissions factors API request started"]
      response := { status := 200, body := emissionsResults } }
  | Except.error e =>
    { logs := [LogEntry.info "Regions emissions factors API request started",
        LogEntry.error "Unable to process regions emissions factors request."]
      response := emissionsCatch e }

/-- The single query parameter read by `RecommendationsApiMiddleware`. -/
structure RecommendationsQuery where
  awsRecommendationTarget : Option String
deriving DecidableEq

/-- `RecommendationsRawRequest`: lines 262-264. -/
structure RecommendationsRawRequest where
  awsRecommendationTarget : Option String
deriving DecidableEq

/-- Line 262-264: the recommendations raw request is built from the one
query parameter. -/
def buildRecommendationsRawRequest (q : RecommendationsQuery) :
    RecommendationsRawRequest :=
  { awsRecommendationTarget := q.awsRecommendationTarget }

/-- The recommendations try block: validate, then fetch. -/
def recommendationsRun {α : Type}
    (createValidRecommendationsRequest :
      RecommendationsRawRequest → Except JsError α)
    (getRecommendations : α → Except JsError String)
    (rawRequest : RecommendationsRawRequest) : Except JsError String :=
  match createValidRecommendationsRequest rawRequest with
  | Except.ok estimationRequest => getRecommendations estimationRequest
  | Except.error e => Except.error e

/-- Lines 275-282: the recommendations catch block only recognises
`RecommendationsRequestValidationError`; everything else, including
`PartialDataError`, falls to the generic 500. -/
def recommendationsCatch (e : JsError) : HttpResponse :=
  if e.ctorName = RecommendationsRequestValidationErrorName then
    { status := 400, body := e.message }
  else { status := 500, body := "Internal Server Error" }

/-- Observable behaviour of one `RecommendationsApiMiddleware`
invocation. -/
structure RecommendationsHandlerOutput where
  logs : List LogEntry
  rawRequestPassed : RecommendationsRawRequest
  response : HttpResponse
deriving DecidableEq

/-- `RecommendationsApiMiddleware`, parameterised over the two external
calls. -/
def RecommendationsApiMiddleware {α : Type}
    (createValidRecommendationsRequest :
      RecommendationsRawRequest → Except JsError α)
    (getRecommendations : α → Except JsError String)
    (q : RecommendationsQuery) : RecommendationsHandlerOutput :=
  match recommendationsRun createValidRecommendationsRequest getRecommendations
      (buildRecommendationsRawRequest q) with
  | Except.ok recommendations =>
    { logs := [LogEntry.info "Recommendations API request started"]
      rawRequestPassed := buildRecommendationsRawRequest q
      response := { status := 200, body := recommendations } }
  | Except.error e =>
    { logs := [LogEntry.info "Recommendations API request started",
        LogEntry.error "Unable to process recommendations request."]
      rawRequestPassed := buildRecommendationsRawRequest q
      response := recommendationsCatch e }

/-- The configuration object passed to `createRouter`; the healthz
route never reads it, so its content is irrelevant and kept abstract as
a flat key-value list. -/
def CCFConfig : Type := List (String × String)

/-- The state a router closes over after `createRouter`: the config it
was constructed with (stored by `setConfig`). -/
structure Router where
  config : Option CCFConfig

/-- `createRouter`: stores the configuration and installs the
routes. -/
def createRouter (config : Option CCFConfig) : Router :=
  { config := config }

/-- Lines 438-440: the `/healthz` handler ignores the router state and
the query entirely. -/
def healthzHandler (router : Router) (query : List (String × String)) :
    HttpResponse :=
  { status := 200, body := "OK" }

end CCF

namespace CCF.Card

/-- An estimation result as consumed by the card: opaque except for the
numeric CO2 value the summation helper extracts. -/
structure EstimationResult where
  co2e : ℚ
deriving DecidableEq

/-- Modelled from the spec: `sumCO2` is imported from
`./transformData`, which is not among the supplied sources; the spec
describes it as "a numeric summation helper over estimation results"
whose result is "the external sum of per-result CO2 values", 0 on the
empty list. -/
def sumCO2 (data : List EstimationResult) : ℚ :=
  (data.map EstimationResult.co2e).sum

/-- The numeric values the card derives on each render (lines 71-75). -/
structure CardValues where
  kgSum : ℚ
  milesSum : ℚ
  gasSum : ℚ
  treesSum : ℚ
deriving DecidableEq

/-- Lines 71-75 of `CarbonComparisonCard`: `kgSum` is the result of the
external summation helper, and the three comparison values are fixed
multiples of it. The helper is a parameter, as in the source it is an
import. -/
def CarbonComparisonCard (sum : List EstimationResult → ℚ)
    (data : List EstimationResult) : CardValues :=
  let kgSum := sum data
  { kgSum := kgSum
    milesSum := kgSum * 2.48138958
    gasSum := kgSum * 0.1125239
    treesSum := kgSum * 0.0165352 }

end CCF.Card

namespace CCF

/-! ### Shared concrete inputs for witnesses and counterexamples -/

/-- A footprint query with both dates and an explicit `groupBy`. -/
def sampleFootprintQuery : FootprintQuery :=
  { start := some "2021-01-01"
    «end» := some "2021-02-01"
    ignoreCache := none
    groupBy := some "day"
    limit := none
    skip := none
    cloudProviders := none
    accounts := none
    services := none
    regions := none
    tags := none }

/-- A footprint query with every parameter absent. -/
def emptyFootprintQuery : FootprintQuery :=
  { start := none
    «end» := none
    ignoreCache := none
    groupBy := none
    limit := none
    skip := none
    cloudProviders := none
    accounts := none
    services := none
    regions := none
    tags := none }

/-! ### Claims -/

/-- Claim C1: in the footprint handler, every caught error whose
constructor name is the footprint validation-error kind yields an HTTP
400 response whose body is exactly the thrown error's message. -/
theorem footprint_validation_error_yields_400 {α : Type}
    (createValidFootprintRequest : FootprintEstimatesRawRequest → Except JsError α)
    (getCostAndEstimates : α → Except JsError String)
    (q : FootprintQuery) (e : JsError)
    (hrun : footprintRun createValidFootprintRequest getCostAndEstimates
      (defaultedFootprintRaw q) = Except.error e)
    (hkind : e.ctorName = EstimationRequestValidationErrorName) :
    (FootprintApiMiddleware createValidFootprintRequest getCostAndEstimates q).response =
      { status := 400, body := e.message } := by
  simp [FootprintApiMiddleware, hrun, footprintCatch, hkind]

/-- Witness for C1 at a concrete query and a validator that throws a
footprint validation error. -/
theorem footprint_validation_error_yields_400_witness :
    (FootprintApiMiddleware
        (fun _ => Except.error
          { ctorName := "EstimationRequestValidationError"
            message := "Start date is invalid" } :
          FootprintEstimatesRawRequest → Except JsError Unit)
        (fun _ => Except.ok "[]")
        sampleFootprintQuery).response =
      { status := 400, body := "Start date is invalid" } :=
  footprint_validation_error_yields_400
    (fun _ => Except.error
      { ctorName := "EstimationRequestValidationError"
        message := "Start date is invalid" })
    (fun _ => Except.ok "[]")
    sampleFootprintQuery
    { ctorName := "EstimationRequestValidationError"
      message := "Start date is invalid" }
    rfl rfl

/-- Claim C2: in the footprint handler, every caught error of the
partial-data kind yields an HTTP 416 response whose body is the error's
message. -/
theorem footprint_partial_data_error_yields_416 {α : Type}
    (createValidFootprintRequest : FootprintEstimatesRawRequest → Except JsError α)
    (getCostAndEstimates : α → Except JsError String)
    (q : FootprintQuery) (e : JsError)
    (hrun : footprintRun createValidFootprintRequest getCostAndEstimates
      (defaultedFootprintRaw q) = Except.error e)
    (hkind : e.ctorName = PartialDataErrorName) :
    (FootprintApiMiddleware createValidFootprintRequest getCostAndEstimates q).response =
      { status := 416, body := e.message } := by
  have hne : ¬ PartialDataErrorName = EstimationRequestValidationErrorName := by
    decide
  simp [FootprintApiMiddleware, hrun, footprintCatch, hkind, hne]

/-- Witness for C2 at a concrete query and an estimator that throws a
partial-data error. -/
theorem footprint_partial_data_error_yields_416_witness :
    (FootprintApiMiddleware
        (fun _ => Except.ok () : FootprintEstimatesRawRequest → Except JsError Unit)
        (fun _ => Except.error
          { ctorName := "PartialDataError", message := "Partial AWS data" })
        sampleFootprintQuery).response =
      { status := 416, body := "Partial AWS data" } :=
  footprint_partial_data_error_yields_416
    (fun _ => Except.ok ())
    (fun _ => Except.error
      { ctorName := "PartialDataError", message := "Partial AWS data" })
    sampleFootprintQuery
    { ctorName := "PartialDataError", message := "Partial AWS data" }
    rfl rfl

/-- Claim C3: an error that is neither of the two recognised
validation-error kinds nor the partial-data kind is mapped, in every
handler, to HTTP 500 with the fixed body. No error propagates past the
handler boundary: each handler is a total function producing exactly
one response for every outcome of its external calls. -/
theorem unrecognized_errors_map_to_generic_500 (e : JsError)
    (h1 : e.ctorName ≠ EstimationRequestValidationErrorName)
    (h2 : e.ctorName ≠ PartialDataErrorName)
    (h3 : e.ctorName ≠ RecommendationsRequestValidationErrorName) :
    (∀ (α : Type) (v : FootprintEstimatesRawRequest → Except JsError α)
        (g : α → Except JsError String) (q : FootprintQuery),
        footprintRun v g (defaultedFootprintRaw q) = Except.error e →
        (FootprintApiMiddleware v g q).response =
          { status := 500, body := "Internal Server Error" }) ∧
    (∀ (α : Type) (v : RecommendationsRawRequest → Except JsError α)
        (g : α → Except JsError String) (q : RecommendationsQuery),
        recommendationsRun v g (buildRecommendationsRawRequest q) = Except.error e →
        (RecommendationsApiMiddleware v g q).response =
          { status := 500, body := "Internal Server Error" }) ∧
    (∀ getEmissionsFactors : Except JsError String,
        getEmissionsFactors = Except.error e →
        (EmissionsApiMiddleware getEmissionsFactors).response =
          { status := 500, body := "Internal Server Error" }) := by
  refine ⟨?_, ?_, ?_⟩
  · intro α v g q hrun
    simp [FootprintApiMiddleware, hrun, footprintCatch, h1, h2]
  · intro α v g q hrun
    simp [RecommendationsApiMiddleware, hrun, recommendationsCatch, h3]
  · intro getEmissionsFactors hrun
    simp [EmissionsApiMiddleware, hrun, emissionsCatch]

/-- Witness for C3 at an error of an unrecognised kind, for all three
handlers at concrete inputs. -/
theorem unrecognized_errors_map_to_generic_500_witness :
    (FootprintApiMiddleware
        (fun _ => Except.error { ctorName := "Error", message := "boom" } :
          FootprintEstimatesRawRequest → Except JsError Unit)
        (fun _ => Except.ok "[]") sampleFootprintQuery).response =
      { status := 500, body := "Internal Server Error" } ∧
    (RecommendationsApiMiddleware
        (fun _ => Except.error { ctorName := "Error", message := "boom" } :
          RecommendationsRawRequest → Except JsError Unit)
        (fun _ => Except.ok "[]")
        { awsRecommendationTarget := none }).response =
      { status := 500, body := "Internal Server Error" } ∧
    (EmissionsApiMiddleware
        (Except.error { ctorName := "Error", message := "boom" })).response =
      { status := 500, body := "Internal Server Error" } := by
  have h := unrecognized_errors_map_to_generic_500
    { ctorName := "Error", message := "boom" }
    (by decide) (by decide) (by decide)
  exact ⟨h.1 Unit _ _ sampleFootprintQuery rfl,
    h.2.1 Unit _ _ { awsRecommendationTarget := none } rfl,
    h.2.2 _ rfl⟩

/-- When the `groupBy` query parameter is absent, the raw request
passed onward is the same one obtained from the query with
`groupBy := "day"`. -/
theorem defaultedFootprintRaw_of_groupBy_none (q : FootprintQuery)
    (h : q.groupBy = none) :
    defaultedFootprintRaw q = defaultedFootprintRaw { q with groupBy := some "day" } := by
  obtain ⟨s, en, ic, gb, l, sk, cp, a, sv, r, t⟩ := q
  simp only at h
  subst h
  rfl

/-- Claim C4: for every footprint request whose `groupBy` query
parameter is absent, the raw request's `groupBy` field is set to
`"day"` and a warning is logged (after the request-started line, before
any error log from validation); the response, the raw request passed to
the validator and the socket timeout are exactly those of the same
query with `groupBy` present as `"day"`. -/
theorem footprint_missing_groupBy_defaults_to_day {α : Type}
    (createValidFootprintRequest : FootprintEstimatesRawRequest → Except JsError α)
    (getCostAndEstimates : α → Except JsError String)
    (q : FootprintQuery) (h : q.groupBy = none) :
    (FootprintApiMiddleware createValidFootprintRequest getCostAndEstimates
        q).rawRequestPassed.groupBy = some "day" ∧
    (FootprintApiMiddleware createValidFootprintRequest getCostAndEstimates q).logs =
      LogEntry.info "Footprint API request started." ::
      LogEntry.warn "GroupBy parameter not specified, adopting default \"day\"" ::
      ((FootprintApiMiddleware createValidFootprintRequest getCostAndEstimates
        { q with groupBy := some "day" }).logs).drop 1 ∧
    (FootprintApiMiddleware createValidFootprintRequest getCostAndEstimates
        q).response =
      (FootprintApiMiddleware createValidFootprintRequest getCostAndEstimates
        { q with groupBy := some "day" }).response ∧
    (FootprintApiMiddleware createValidFootprintRequest getCostAndEstimates
        q).rawRequestPassed =
      (FootprintApiMiddleware createValidFootprintRequest getCostAndEstimates
        { q with groupBy := some "day" }).rawRequestPassed ∧
    (FootprintApiMiddleware createValidFootprintRequest getCostAndEstimates
        q).socketTimeoutMs =
      (FootprintApiMiddleware createValidFootprintRequest getCostAndEstimates
        { q with groupBy := some "day" }).socketTimeoutMs := by
  have hd := defaultedFootprintRaw_of_groupBy_none q h
  have hfq : jsFalsy (buildFootprintRawRequest q).groupBy = true := by
    simp [buildFootprintRawRequest, jsFalsy, h]
  have hfq2 : jsFalsy (buildFootprintRawRequest
      { q with groupBy := some "day" }).groupBy = false := by
    simp [buildFootprintRawRequest, jsFalsy]
  have hg : (defaultedFootprintRaw q).groupBy = some "day" := by
    simp [defaultedFootprintRaw, hfq]
  unfold FootprintApiMiddleware
  rw [hd]
  cases hrun : footprintRun createValidFootprintRequest getCostAndEstimates
      (defaultedFootprintRaw { q with groupBy := some "day" }) <;>
    simp [footprintStartLogs, hfq, hfq2, ← hd, hg]

/-- Witness for C4: with every parameter absent, the raw request handed
to the validator carries `groupBy = "day"`. -/
theorem footprint_missing_groupBy_defaults_to_day_witness :
    (FootprintApiMiddleware
        (fun _ => Except.ok () : FootprintEstimatesRawRequest → Except JsError Unit)
        (fun _ => Except.ok "[]") emptyFootprintQuery).rawRequestPassed.groupBy =
      some "day" :=
  (footprint_missing_groupBy_defaults_to_day
    (fun _ => Except.ok ()) (fun _ => Except.ok "[]") emptyFootprintQuery rfl).1

/-- Claim C5: for every estimation-result collection (and any external
summation helper providing `kgSum`), the card's derived values satisfy
`treesSum = kgSum * 0.0165352`, `gasSum = kgSum * 0.1125239` and
`milesSum = kgSum * 2.48138958`. -/
theorem card_derived_values (sum : List Card.EstimationResult → ℚ)
    (data : List Card.EstimationResult) :
    (Card.CarbonComparisonCard sum data).kgSum = sum data ∧
    (Card.CarbonComparisonCard sum data).treesSum = sum data * 0.0165352 ∧
    (Card.CarbonComparisonCard sum data).gasSum = sum data * 0.1125239 ∧
    (Card.CarbonComparisonCard sum data).milesSum = sum data * 2.48138958 :=
  ⟨rfl, rfl, rfl, rfl⟩

/-- Claim C6: the card has no error conditions; on the empty input list
`kgSum` is 0 and all three derived comparison values are 0. -/
theorem card_empty_input_all_zero :
    (Card.CarbonComparisonCard Card.sumCO2 []).kgSum = 0 ∧
    (Card.CarbonComparisonCard Card.sumCO2 []).milesSum = 0 ∧
    (Card.CarbonComparisonCard Card.sumCO2 []).gasSum = 0 ∧
    (Card.CarbonComparisonCard Card.sumCO2 []).treesSum = 0 := by
  refine ⟨rfl, ?_, ?_, ?_⟩ <;>
    norm_num [Card.CarbonComparisonCard, Card.sumCO2]

/-- Claim C7: every request to `/healthz`, for every query and every
configuration the router was created with, gets HTTP 200 with body
exactly `OK`. -/
theorem healthz_always_200_OK (config : Option CCFConfig)
    (query : List (String × String)) :
    healthzHandler (createRouter config) query = { status := 200, body := "OK" } :=
  rfl

/-- Claim C8: error-kind discrimination compares the caught error's
runtime constructor name against the two validation-error kinds and the
partial-data kind; an error matching none of the three kinds is mapped
to the generic 500 by every catch block. -/
theorem error_kind_discrimination (e : JsError) :
    (e.ctorName = EstimationRequestValidationErrorName →
      footprintCatch e = { status := 400, body := e.message }) ∧
    (e.ctorName = PartialDataErrorName →
      footprintCatch e = { status := 416, body := e.message }) ∧
    (e.ctorName = RecommendationsRequestValidationErrorName →
      recommendationsCatch e = { status := 400, body := e.message }) ∧
    (e.ctorName ≠ EstimationRequestValidationErrorName →
      e.ctorName ≠ PartialDataErrorName →
      e.ctorName ≠ RecommendationsRequestValidationErrorName →
      footprintCatch e = { status := 500, body := "Internal Server Error" } ∧
      recommendationsCatch e = { status := 500, body := "Internal Server Error" } ∧
      emissionsCatch e = { status := 500, body := "Internal Server Error" }) := by
  refine ⟨?_, ?_, ?_, ?_⟩
  · intro hkind
    simp [footprintCatch, hkind]
  · intro hkind
    have hne : ¬ PartialDataErrorName = EstimationRequestValidationErrorName := by
      decide
    simp [footprintCatch, hkind, hne]
  · intro hkind
    simp [recommendationsCatch, hkind]
  · intro h1 h2 h3
    exact ⟨by simp [footprintCatch, h1, h2],
      by simp [recommendationsCatch, h3],
      by simp [emissionsCatch]⟩

/-- Witness for C8: a recognised kind gets its mapping, an alien kind
falls to the generic 500 everywhere. -/
theorem error_kind_discrimination_witness :
    footprintCatch
        { ctorName := "EstimationRequestValidationError", message := "bad dates" } =
      { status := 400, body := "bad dates" } ∧
    footprintCatch { ctorName := "TypeError", message := "x" } =
      { status := 500, body := "Internal Server Error" } ∧
    recommendationsCatch { ctorName := "TypeError", message := "x" } =
      { status := 500, body := "Internal Server Error" } ∧
    emissionsCatch { ctorName := "TypeError", message := "x" } =
      { status := 500, body := "Internal Server Error" } := by
  have ha := (error_kind_discrimination
    { ctorName := "EstimationRequestValidationError", message := "bad dates" }).1 rfl
  have hb := (error_kind_discrimination
    { ctorName := "TypeError", message := "x" }).2.2.2
    (by decide) (by decide) (by decide)
  exact ⟨ha, hb.1, hb.2.1, hb.2.2⟩

/-- Counterexample to C9 as stated: with every query parameter absent,
the raw request handed to `createValidFootprintRequest` has
`groupBy = "day"`, which is not the value extracted from the `groupBy`
query parameter (absent). -/
theorem raw_request_not_verbatim_counterexample :
    (FootprintApiMiddleware
        (fun _ => Except.ok () : FootprintEstimatesRawRequest → Except JsError Unit)
        (fun _ => Except.ok "[]") emptyFootprintQuery).rawRequestPassed.groupBy ≠
      emptyFootprintQuery.groupBy := by
  decide

/-- Claim C9 (amended): the raw request structures are built field by
field from the query parameters; the footprint raw request is then
passed to the validator unchanged except that a falsy `groupBy` is
replaced by `"day"`, and the recommendations raw request is passed
fully verbatim; no other local transformation or invariant is applied
before validation. -/
theorem raw_requests_verbatim_except_groupBy_default {α β : Type}
    (createValidFootprintRequest : FootprintEstimatesRawRequest → Except JsError α)
    (getCostAndEstimates : α → Except JsError String)
    (createValidRecommendationsRequest : RecommendationsRawRequest → Except JsError β)
    (getRecommendations : β → Except JsError String)
    (q : FootprintQuery) (qr : RecommendationsQuery) :
    (buildFootprintRawRequest q).startDate = q.start ∧
    (buildFootprintRawRequest q).endDate = q.«end» ∧
    (buildFootprintRawRequest q).ignoreCache = q.ignoreCache ∧
    (buildFootprintRawRequest q).groupBy = q.groupBy ∧
    (buildFootprintRawRequest q).limit = q.limit ∧
    (buildFootprintRawRequest q).skip = q.skip ∧
    (buildFootprintRawRequest q).cloudProviders = q.cloudProviders ∧
    (buildFootprintRawRequest q).accounts = q.accounts ∧
    (buildFootprintRawRequest q).services = q.services ∧
    (buildFootprintRawRequest q).regions = q.regions ∧
    (buildFootprintRawRequest q).tags = q.tags ∧
    (FootprintApiMiddleware createValidFootprintRequest getCostAndEstimates
        q).rawRequestPassed =
      (if jsFalsy q.groupBy then
        { buildFootprintRawRequest q with groupBy := some "day" }
      else buildFootprintRawRequest q) ∧
    (RecommendationsApiMiddleware createValidRecommendationsRequest
        getRecommendations qr).rawRequestPassed =
      buildRecommendationsRawRequest qr ∧
    (buildRecommendationsRawRequest qr).awsRecommendationTarget =
      qr.awsRecommendationTarget := by
  have hfp : (FootprintApiMiddleware createValidFootprintRequest
      getCostAndEstimates q).rawRequestPassed = defaultedFootprintRaw q := by
    unfold FootprintApiMiddleware
    cases footprintRun createValidFootprintRequest getCostAndEstimates
      (defaultedFootprintRaw q) <;> rfl
  have hrp : (RecommendationsApiMiddleware createValidRecommendationsRequest
      getRecommendations qr).rawRequestPassed = buildRecommendationsRawRequest qr := by
    unfold RecommendationsApiMiddleware
    cases recommendationsRun createValidRecommendationsRequest getRecommendations
      (buildRecommendationsRawRequest qr) <;> rfl
  refine ⟨rfl, rfl, rfl, rfl, rfl, rfl, rfl, rfl, rfl, rfl, rfl, ?_, hrp, rfl⟩
  rw [hfp]
  rfl

/-- Claim C10: in the recommendations handler a caught partial-data
error is mapped to the generic 500, not 416; only the recommendations
validation-error kind gets a 400 with its message, and every other kind
gets the generic 500. -/
theorem recommendations_partial_data_gets_generic_500 (e : JsError) :
    (∀ (α : Type) (v : RecommendationsRawRequest → Except JsError α)
        (g : α → Except JsError String) (q : RecommendationsQuery),
        recommendationsRun v g (buildRecommendationsRawRequest q) = Except.error e →
        (RecommendationsApiMiddleware v g q).response = recommendationsCatch e) ∧
    (e.ctorName = PartialDataErrorName →
      recommendationsCatch e = { status := 500, body := "Internal Server Error" }) ∧
    (e.ctorName = RecommendationsRequestValidationErrorName →
      recommendationsCatch e = { status := 400, body := e.message }) ∧
    (e.ctorName ≠ RecommendationsRequestValidationErrorName →
      recommendationsCatch e = { status := 500, body := "Internal Server Error" }) := by
  refine ⟨?_, ?_, ?_, ?_⟩
  · intro α v g q hrun
    simp [RecommendationsApiMiddleware, hrun]
  · intro hkind
    have hne : ¬ PartialDataErrorName = RecommendationsRequestValidationErrorName := by
      decide
    simp [recommendationsCatch, hkind, hne]
  · intro hkind
    simp [recommendationsCatch, hkind]
  · intro hkind
    simp [recommendationsCatch, hkind]

/-- Witness for C10: a thrown partial-data error makes the
recommendations handler answer 500 with the generic body. -/
theorem recommendations_partial_data_gets_generic_500_witness :
    (RecommendationsApiMiddleware
        (fun _ => Except.error
          { ctorName := "PartialDataError", message := "partial" } :
          RecommendationsRawRequest → Except JsError Unit)
        (fun _ => Except.ok "[]")
        { awsRecommendationTarget := none }).response =
      { status := 500, body := "Internal Server Error" } := by
  have h := recommendations_partial_data_gets_generic_500
    { ctorName := "PartialDataError", message := "partial" }
  have h1 := h.1 Unit
    (fun _ => Except.error { ctorName := "PartialDataError", message := "partial" })
    (fun _ => Except.ok "[]") { awsRecommendationTarget := none } rfl
  rw [h1]
  exact h.2.1 rfl

end CCF
